import Mathlib

/-!
# Verification of the technical-analysis engine

Shallow embedding of the analysis core of the `mine24-stock-front-end`
repository (`src/lib/server/analysis/{indicators,wyckoff,targets,recommendation}.ts`)
into Lean 4, together with proofs about the embedded functions.

Modelling conventions:
* JavaScript `number` values are modelled as exact rationals (`ℚ`).
* `number | null` is modelled as `Option ℚ`.
* A `HistoricalPrice` keeps the numeric OHLCV fields.  The `date` field is
  dropped: per the engine's data model a price series has strictly increasing
  dates, so the `[...prices].sort((a, b) => dateA - dateB)` calls in the source
  are the identity on every valid input and the embedding works directly with
  the (already ascending) list.
* JavaScript truthiness on `number | null` (`x ? a : b`, `x || d`) treats both
  `null` and `0` as falsy; helpers `jsOrElse`/`truthy` reproduce this.
* Where JavaScript would produce `±Infinity`/`NaN` from division by zero, the
  embedding branches explicitly on the zero denominator and returns the value
  that the surrounding comparison logic of the source would compute.
-/

/-- JavaScript `Math.round`: round half toward `+∞`, i.e. `⌊x + 1/2⌋`. -/
def jsRound (x : ℚ) : ℤ := ⌊x + 1/2⌋

/-- `Math.round(x * 100) / 100` — round to two decimal places. -/
def round2 (x : ℚ) : ℚ := (jsRound (x * 100) : ℚ) / 100

/-- JavaScript `Math.abs`. -/
def jsAbs (x : ℚ) : ℚ := if x < 0 then -x else x

/-- `Math.max(...xs)` over a nonempty list (`0` for `[]`, which never occurs). -/
def listMax : List ℚ → ℚ
  | [] => 0
  | x :: xs => xs.foldl max x

/-- `Math.min(...xs)` over a nonempty list (`0` for `[]`, which never occurs). -/
def listMin : List ℚ → ℚ
  | [] => 0
  | x :: xs => xs.foldl min x

/-- JavaScript `v || fallback` on a `number | null`: `null` and `0` are falsy. -/
def jsOrElse (v : Option ℚ) (fallback : ℚ) : ℚ :=
  match v with
  | some x => if x = 0 then fallback else x
  | none => fallback

/-- JavaScript truthiness of a `number | null`. -/
def truthy : Option ℚ → Bool
  | some x => decide (x ≠ 0)
  | none => false

/-- One OHLCV bar (`HistoricalPrice` from `yahoo/index.ts`, minus `date`). -/
structure HistoricalPrice where
  open' : ℚ
  high : ℚ
  low : ℚ
  close : ℚ
  volume : ℚ
deriving DecidableEq, Inhabited, Repr

/-- `TechnicalIndicators` from `indicators.ts`; `volumeAvg20` is an integer
because the source applies `Math.round` to it. -/
structure TechnicalIndicators where
  ma20 : Option ℚ
  ma50 : Option ℚ
  ma200 : Option ℚ
  rsi14 : Option ℚ
  mfi14 : Option ℚ
  macdLine : Option ℚ
  macdSignal : Option ℚ
  macdHistogram : Option ℚ
  volumeAvg20 : Option ℤ
  volumeRatio : Option ℚ
deriving DecidableEq, Repr

/-- `calculateSMA` (indicators.ts:17): mean of the last `period` values,
`null` when the list is shorter than `period`. -/
def calculateSMA (prices : List ℚ) (period : ℕ) : Option ℚ :=
  if prices.length < period then none
  else some ((prices.drop (prices.length - period)).sum / (period : ℚ))

/-- `calculateEMA` (indicators.ts:26): seed with the SMA of the first `period`
entries, then `prev + (price - prev) * (2/(period+1))`; `[]` when too short.
`List.scanl` produces exactly `seed :: successive EMA values`. -/
def calculateEMA (prices : List ℚ) (period : ℕ) : List ℚ :=
  if prices.length < period then []
  else
    let multiplier : ℚ := 2 / ((period : ℚ) + 1)
    let firstSMA : ℚ := (prices.take period).sum / (period : ℚ)
    (prices.drop period).scanl (fun prev p => (p - prev) * multiplier + prev) firstSMA

/-- `calculateRSI` (indicators.ts:48): Wilder smoothing of gains/losses.
The state pair is `(avgGain, avgLoss)`. -/
def calculateRSI (prices : List ℚ) (period : ℕ := 14) : Option ℚ :=
  if prices.length < period + 1 then none
  else
    let changes := List.zipWith (fun a b => b - a) prices prices.tail
    let seed := (changes.take period).foldl
      (fun (gl : ℚ × ℚ) c => if c > 0 then (gl.1 + c, gl.2) else (gl.1, gl.2 + jsAbs c))
      (0, 0)
    let start : ℚ × ℚ := (seed.1 / (period : ℚ), seed.2 / (period : ℚ))
    let fin := (changes.drop period).foldl
      (fun (gl : ℚ × ℚ) c =>
        if c > 0 then
          ((gl.1 * ((period : ℚ) - 1) + c) / (period : ℚ), gl.2 * ((period : ℚ) - 1) / (period : ℚ))
        else
          (gl.1 * ((period : ℚ) - 1) / (period : ℚ), (gl.2 * ((period : ℚ) - 1) + jsAbs c) / (period : ℚ)))
      start
    if fin.2 = 0 then some 100
    else some (100 - 100 / (1 + fin.1 / fin.2))

/-- Typical price `(high+low+close)/3` (indicators.ts:101). -/
def typicalPrice (p : HistoricalPrice) : ℚ := (p.high + p.low + p.close) / 3

/-- `calculateMFI` (indicators.ts:92).  The loop over
`i ∈ [len-period, len)` comparing `typical[i]` with `typical[i-1]` and
accumulating `rawMoneyFlow[i]` is rendered as the last `period` entries of the
adjacent-pairs list `((typical[j], typical[j+1]), flow[j+1])`. -/
def calculateMFI (prices : List HistoricalPrice) (period : ℕ := 14) : Option ℚ :=
  if prices.length < period + 1 then none
  else
    let tps := prices.map typicalPrice
    let flows := prices.map (fun p => typicalPrice p * p.volume)
    let steps := List.zip (List.zip tps tps.tail) flows.tail
    let recent := steps.drop (steps.length - period)
    let positiveFlow := (recent.filter (fun s => decide (s.1.1 < s.1.2))).foldl (fun a s => a + s.2) 0
    let negativeFlow := (recent.filter (fun s => decide (s.1.2 < s.1.1))).foldl (fun a s => a + s.2) 0
    if negativeFlow = 0 then some 100
    else some (100 - 100 / (1 + positiveFlow / negativeFlow))

/-- Result triple of `calculateMACD`. -/
structure MACDResult where
  macdLine : Option ℚ
  signal : Option ℚ
  histogram : Option ℚ
deriving DecidableEq, Repr

/-- The MACD-line array (indicators.ts:147–152): for each index of the slow
EMA, subtract it from the fast-EMA entry at offset `slowPeriod - fastPeriod`,
skipping indices that fall outside the fast array (the source's bounds check,
done on JavaScript numbers, is rendered over `ℤ`). -/
def alignMACD (fastEMA slowEMA : List ℚ) (fastPeriod slowPeriod : ℕ) : List ℚ :=
  (List.range slowEMA.length).filterMap (fun (i : ℕ) =>
    let fastIdx : ℤ := (i : ℤ) + (slowPeriod : ℤ) - (fastPeriod : ℤ)
    if 0 ≤ fastIdx ∧ fastIdx < (fastEMA.length : ℤ) then
      some (fastEMA.getD fastIdx.toNat 0 - slowEMA.getD i 0)
    else none)

/-- `calculateMACD` (indicators.ts:125). -/
def calculateMACD (prices : List ℚ) (fastPeriod : ℕ := 12) (slowPeriod : ℕ := 26)
    (signalPeriod : ℕ := 9) : MACDResult :=
  if prices.length < slowPeriod + signalPeriod then ⟨none, none, none⟩
  else
    let fastEMA := calculateEMA prices fastPeriod
    let slowEMA := calculateEMA prices slowPeriod
    if fastEMA.length = 0 ∨ slowEMA.length = 0 then ⟨none, none, none⟩
    else
      let macdValues := alignMACD fastEMA slowEMA fastPeriod slowPeriod
      if macdValues.length < signalPeriod then ⟨none, none, none⟩
      else
        let signalEMA := calculateEMA macdValues signalPeriod
        let macdLine := macdValues.getD (macdValues.length - 1) 0
        let signal : Option ℚ :=
          if 0 < signalEMA.length then some (signalEMA.getD (signalEMA.length - 1) 0) else none
        let histogram := signal.map (fun s => macdLine - s)
        ⟨some macdLine, signal, histogram⟩

/-- `calculateIndicators` (indicators.ts:169).  The input is assumed
date-ascending (see module docstring), so the source's sort is the identity. -/
def calculateIndicators (prices : List HistoricalPrice) : TechnicalIndicators :=
  if prices.length = 0 then
    ⟨none, none, none, none, none, none, none, none, none, none⟩
  else
    let closes := prices.map (·.close)
    let volumes := prices.map (·.volume)
    let macd := calculateMACD closes 12 26 9
    let volumeAvg20 : Option ℤ :=
      if 20 ≤ volumes.length then
        some (jsRound ((volumes.drop (volumes.length - 20)).sum / 20))
      else none
    let currentVolume := volumes.getD (volumes.length - 1) 0
    let volumeRatio : Option ℚ :=
      match volumeAvg20 with
      | some a => if a = 0 then none else some (currentVolume / (a : ℚ))
      | none => none
    { ma20 := calculateSMA closes 20
      ma50 := calculateSMA closes 50
      ma200 := calculateSMA closes 200
      rsi14 := calculateRSI closes 14
      mfi14 := calculateMFI prices 14
      macdLine := macd.macdLine
      macdSignal := macd.signal
      macdHistogram := macd.histogram
      volumeAvg20 := volumeAvg20
      volumeRatio := volumeRatio }

/-- Trend direction returned by `identifyTrend`. -/
inductive Trend where
  | bullish
  | bearish
  | neutral
deriving DecidableEq, Repr

/-- `identifyTrend` (indicators.ts:229).  `!ma20 || !ma50` is JavaScript
truthiness: `null` or `0` short-circuits to `neutral`.  `ma200` is read but
never used for the decision in the source. -/
def identifyTrend (currentPrice : ℚ) (ma20 ma50 _ma200 : Option ℚ) : Trend :=
  match ma20, ma50 with
  | some m20, some m50 =>
    if m20 = 0 ∨ m50 = 0 then .neutral
    else if currentPrice > m20 ∧ currentPrice > m50 ∧ m20 > m50 then .bullish
    else if ¬currentPrice > m20 ∧ ¬currentPrice > m50 ∧ ¬m20 > m50 then .bearish
    else .neutral
  | _, _ => .neutral

/-- Volume pattern returned by `analyzeVolume`. -/
inductive VolumePattern where
  | increasing
  | decreasing
  | stable
deriving DecidableEq, Repr

/-- `analyzeVolume` (indicators.ts:258).  When the first-half average is `0`
JavaScript computes `±Infinity`/`NaN` for `changePercent`; the explicit zero
branch returns what the `> 20` / `< -20` comparisons then decide. -/
def analyzeVolume (prices : List HistoricalPrice) (lookback : ℕ := 20) : VolumePattern :=
  if prices.length < lookback then .stable
  else
    let recent := prices.drop (prices.length - lookback)
    let firstHalf := recent.take (lookback / 2)
    let secondHalf := recent.drop (lookback / 2)
    let firstHalfAvg := (firstHalf.map (·.volume)).sum / (firstHalf.length : ℚ)
    let secondHalfAvg := (secondHalf.map (·.volume)).sum / (secondHalf.length : ℚ)
    if firstHalfAvg = 0 then
      if 0 < secondHalfAvg then .increasing
      else if secondHalfAvg < 0 then .decreasing
      else .stable
    else
      let changePercent := (secondHalfAvg - firstHalfAvg) / firstHalfAvg * 100
      if changePercent > 20 then .increasing
      else if changePercent < -20 then .decreasing
      else .stable

/-- `WyckoffPhase` from `db/schema.ts:168`. -/
inductive WyckoffPhase where
  | accumulation
  | markup
  | distribution
  | markdown
deriving DecidableEq, Repr

/-- `WyckoffSubPhase` from `db/schema.ts:169`. -/
inductive WyckoffSubPhase where
  | A
  | B
  | C
  | D
  | E
deriving DecidableEq, Repr

/-- `SupportResistance` from `wyckoff.ts:10`. -/
structure SupportResistance where
  support : ℚ
  resistance : ℚ
  pivotPoints : List ℚ
deriving DecidableEq, Repr

/-- `WyckoffResult` from `wyckoff.ts:16`. -/
structure WyckoffResult where
  phase : WyckoffPhase
  subPhase : WyckoffSubPhase
  strength : ℚ
  support : ℚ
  resistance : ℚ
  indicators : TechnicalIndicators
  reasoning : String
deriving DecidableEq, Repr

/-- `prices[prices.length - 1]?.close || 0`: the latest close, `0` for an
empty series (and for a `0` close, which `|| 0` maps to the same `0`). -/
def lastClose (prices : List HistoricalPrice) : ℚ :=
  match prices.getLast? with
  | some b => b.close
  | none => 0

/-- The pivot-collection loop of `findKeyLevels` (wyckoff.ts:44–70): for each
`i` with `2 ≤ i < len - 2`, emit `high i` if it strictly exceeds the highs of
the two bars on each side, then `low i` if it is strictly below the lows of
the two bars on each side. -/
def findPivots (prices : List HistoricalPrice) : List ℚ :=
  (List.range prices.length).flatMap (fun (i : ℕ) =>
    if 2 ≤ i ∧ i + 2 < prices.length then
      let prev2 := prices.getD (i - 2) default
      let prev1 := prices.getD (i - 1) default
      let curr := prices.getD i default
      let next1 := prices.getD (i + 1) default
      let next2 := prices.getD (i + 2) default
      (if curr.high > prev1.high ∧ curr.high > prev2.high ∧
          curr.high > next1.high ∧ curr.high > next2.high then [curr.high] else [])
      ++
      (if curr.low < prev1.low ∧ curr.low < prev2.low ∧
          curr.low < next1.low ∧ curr.low < next2.low then [curr.low] else [])
    else [])

/-- `pivots.filter(p => p < current).sort((a, b) => b - a)` — candidate
supports, descending, so the head is the highest pivot below the close. -/
def supportCandidates (prices : List HistoricalPrice) : List ℚ :=
  List.insertionSort (fun a b => a ≥ b)
    ((findPivots prices).filter (fun p => decide (p < lastClose prices)))

/-- `pivots.filter(p => p > current).sort((a, b) => a - b)` — candidate
resistances, ascending, so the head is the lowest pivot above the close. -/
def resistanceCandidates (prices : List HistoricalPrice) : List ℚ :=
  List.insertionSort (fun a b => a ≤ b)
    ((findPivots prices).filter (fun p => decide (p > lastClose prices)))

/-- `findKeyLevels` (wyckoff.ts:27).  `supports[0] || currentPrice*0.95` is
JavaScript truthiness: both a missing head (`undefined`) and a `0` pivot fall
back to the synthetic level — `jsOrElse` reproduces this. -/
def findKeyLevels (prices : List HistoricalPrice) : SupportResistance :=
  if prices.length < 20 then
    let currentPrice := lastClose prices
    ⟨currentPrice * (95/100), currentPrice * (105/100), []⟩
  else
    let currentPrice := lastClose prices
    { support := jsOrElse (supportCandidates prices).head? (currentPrice * (95/100))
      resistance := jsOrElse (resistanceCandidates prices).head? (currentPrice * (105/100))
      pivotPoints := findPivots prices }

/-- `detectConsolidation` (wyckoff.ts:86).  With `rangeLow = 0` JavaScript
produces `±Infinity`/`NaN` for `rangePercent`; `rangePercent < 15` then holds
exactly when `rangeHigh < 0` (`-Infinity` case).  The returned `rangePercent`
is not consumed anywhere in that case. -/
def detectConsolidation (prices : List HistoricalPrice) (lookback : ℕ := 20) : Bool × ℚ :=
  if prices.length < lookback then (false, 0)
  else
    let recent := prices.drop (prices.length - lookback)
    let rangeHigh := listMax (recent.map (·.high))
    let rangeLow := listMin (recent.map (·.low))
    if rangeLow = 0 then (decide (rangeHigh < 0), 0)
    else
      let rangePercent := (rangeHigh - rangeLow) / rangeLow * 100
      (decide (rangePercent < 15), rangePercent)

/-- `true` iff adjacent entries strictly increase (the `recentLows` check of
`hasHigherLows`, wyckoff.ts:125–129). -/
def strictlyIncreasingB (l : List ℚ) : Bool :=
  (List.zip l l.tail).all (fun p => decide (p.1 < p.2))

/-- `true` iff adjacent entries strictly decrease (the `recentHighs` check of
`hasLowerHighs`, wyckoff.ts:150–154). -/
def strictlyDecreasingB (l : List ℚ) : Bool :=
  (List.zip l l.tail).all (fun p => decide (p.2 < p.1))

/-- Per-chunk extremes: split into `count` chunks of `⌊len/count⌋` bars and
apply `f` to the selected field of each chunk (wyckoff.ts:116–122). -/
def chunkExtremes (prices : List HistoricalPrice) (count : ℕ) (f : List ℚ → ℚ)
    (sel : HistoricalPrice → ℚ) : List ℚ :=
  let chunkSize := prices.length / count
  (List.range count).map (fun (i : ℕ) => f (((prices.drop (i * chunkSize)).take chunkSize).map sel))

/-- `hasHigherLows` (wyckoff.ts:110). -/
def hasHigherLows (prices : List HistoricalPrice) (count : ℕ := 3) : Bool :=
  if prices.length < count * 5 then false
  else strictlyIncreasingB (chunkExtremes prices count listMin (·.low))

/-- `hasLowerHighs` (wyckoff.ts:135). -/
def hasLowerHighs (prices : List HistoricalPrice) (count : ℕ := 3) : Bool :=
  if prices.length < count * 5 then false
  else strictlyDecreasingB (chunkExtremes prices count listMax (·.high))

/-- `(currentPrice - support) / support < 0.05` (wyckoff.ts:201).  For
`support = 0` JavaScript yields `±Infinity`/`NaN`, and the comparison holds
exactly when the numerator is negative. -/
def priceNearSupportB (currentPrice support : ℚ) : Bool :=
  if support = 0 then decide (currentPrice < 0)
  else decide ((currentPrice - support) / support < 5/100)

/-- `(resistance - currentPrice) / currentPrice < 0.05` (wyckoff.ts:202),
with the analogous `currentPrice = 0` convention. -/
def priceNearResistanceB (currentPrice resistance : ℚ) : Bool :=
  if currentPrice = 0 then decide (resistance < 0)
  else decide ((resistance - currentPrice) / currentPrice < 5/100)

/-- `(indicators.rsi14 || 50)` — `null` and `0` both default to `50`. -/
def jsOr50 (v : Option ℚ) : ℚ := jsOrElse v 50

/-- `(rsi14 || 50) < 30` (wyckoff.ts:205). -/
def rsiOversoldB (rsi : Option ℚ) : Bool := decide (jsOr50 rsi < 30)

/-- `(rsi14 || 50) > 70` (wyckoff.ts:206). -/
def rsiOverboughtB (rsi : Option ℚ) : Bool := decide (jsOr50 rsi > 70)

/-- `(mfi14 || 50) < 30` (wyckoff.ts:209). -/
def mfiOversoldB (mfi : Option ℚ) : Bool := decide (jsOr50 mfi < 30)

/-- `(mfi14 || 50) > 70` (wyckoff.ts:210). -/
def mfiOverboughtB (mfi : Option ℚ) : Bool := decide (jsOr50 mfi > 70)

/-- `macdHistogram !== null && macdHistogram > 0` (wyckoff.ts:213). -/
def macdBullishB (h : Option ℚ) : Bool :=
  match h with
  | some v => decide (v > 0)
  | none => false

/-- `macdHistogram !== null && macdHistogram < 0` (wyckoff.ts:215). -/
def macdBearishB (h : Option ℚ) : Bool :=
  match h with
  | some v => decide (v < 0)
  | none => false

/-- `ma20 && ma50 && ma20 > ma50` (wyckoff.ts:262) with truthiness. -/
def maTruthyGt (ma20 ma50 : Option ℚ) : Bool :=
  match ma20, ma50 with
  | some a, some b => decide (a ≠ 0) && decide (b ≠ 0) && decide (a > b)
  | _, _ => false

/-- `ma20 && ma50 && ma20 < ma50` (wyckoff.ts:321) with truthiness. -/
def maTruthyLt (ma20 ma50 : Option ℚ) : Bool :=
  match ma20, ma50 with
  | some a, some b => decide (a ≠ 0) && decide (b ≠ 0) && decide (a < b)
  | _, _ => false

/-- Phase, sub-phase, raw (uncapped) strength and reasoning chosen by the
rule chain. -/
structure PhasePick where
  phase : WyckoffPhase
  subPhase : WyckoffSubPhase
  strength : ℚ
  reasoning : String
deriving DecidableEq, Repr

/-- The ordered rule chain of `detectWyckoffPhase` (wyckoff.ts:223–348),
extracted over the already-computed flags.  Sequential `strength += w`
statements are rendered as sums of `if`-terms, `reasoning +=` as string
concatenation, in source order. -/
def classifyPhase (isConsolidating priceNearSupport priceNearResistance rsiOversold rsiOverbought
    mfiOversold mfiOverbought macdBullish macdBearish higherLows lowerHighs : Bool)
    (trend : Trend) (volumePattern : VolumePattern) (ma20 ma50 : Option ℚ) : PhasePick :=
  if isConsolidating ∧ (priceNearSupport ∨ rsiOversold ∨ mfiOversold) then
    let sub : WyckoffSubPhase × ℚ × String :=
      if higherLows then (.C, 30, "Higher lows forming. ")
      else if volumePattern = .decreasing then (.B, 20, "Volume decreasing during consolidation. ")
      else (.A, 10, "Initial accumulation phase. ")
    { phase := .accumulation
      subPhase := sub.1
      strength := sub.2.1 + (if rsiOversold then 15 else 0) + (if mfiOversold then 15 else 0)
        + (if macdBullish then 10 else 0)
      reasoning := "Price consolidating near support levels. " ++ sub.2.2
        ++ (if rsiOversold then "RSI oversold. " else "")
        ++ (if mfiOversold then "MFI shows accumulation. " else "")
        ++ (if macdBullish then "MACD turning bullish. " else "") }
  else if trend = .bullish ∧ ¬isConsolidating then
    let sub : WyckoffSubPhase × ℚ × String :=
      if maTruthyGt ma20 ma50 then (.D, 25, "MA20 above MA50. ") else (.C, 15, "")
    { phase := .markup
      subPhase := sub.1
      strength := sub.2.1 + (if volumePattern = .increasing then 20 else 0)
        + (if macdBullish then 15 else 0) + (if ¬rsiOverbought then 10 else 0)
      reasoning := "Price in uptrend above moving averages. " ++ sub.2.2
        ++ (if volumePattern = .increasing then "Volume increasing on up moves. " else "")
        ++ (if macdBullish then "MACD bullish. " else "")
        ++ (if ¬rsiOverbought then "RSI not yet overbought, room to run. " else "") }
  else if isConsolidating ∧ (priceNearResistance ∨ rsiOverbought ∨ mfiOverbought) then
    let sub : WyckoffSubPhase × ℚ × String :=
      if lowerHighs then (.C, 30, "Lower highs forming. ")
      else if volumePattern = .decreasing then (.B, 20, "Volume decreasing during consolidation. ")
      else (.A, 10, "Initial distribution phase. ")
    { phase := .distribution
      subPhase := sub.1
      strength := sub.2.1 + (if rsiOverbought then 15 else 0) + (if mfiOverbought then 15 else 0)
        + (if macdBearish then 10 else 0)
      reasoning := "Price consolidating near resistance levels. " ++ sub.2.2
        ++ (if rsiOverbought then "RSI overbought. " else "")
        ++ (if mfiOverbought then "MFI shows distribution. " else "")
        ++ (if macdBearish then "MACD turning bearish. " else "") }
  else if trend = .bearish ∧ ¬isConsolidating then
    let sub : WyckoffSubPhase × ℚ × String :=
      if maTruthyLt ma20 ma50 then (.D, 25, "MA20 below MA50. ") else (.C, 15, "")
    { phase := .markdown
      subPhase := sub.1
      strength := sub.2.1 + (if volumePattern = .increasing then 20 else 0)
        + (if macdBearish then 15 else 0) + (if ¬rsiOversold then 10 else 0)
      reasoning := "Price in downtrend below moving averages. " ++ sub.2.2
        ++ (if volumePattern = .increasing then "Volume increasing on down moves. " else "")
        ++ (if macdBearish then "MACD bearish. " else "")
        ++ (if ¬rsiOversold then "RSI not yet oversold, more downside possible. " else "") }
  else
    { phase := .accumulation
      subPhase := .A
      strength := 25
      reasoning := "Market in transition, monitoring for clearer signals. " }

/-- `detectWyckoffPhase` (wyckoff.ts:160).  Input assumed date-ascending, so
the source's sort is the identity (module docstring). -/
def detectWyckoffPhase (prices : List HistoricalPrice) : WyckoffResult :=
  if prices.length < 50 then
    let currentPrice := lastClose prices
    { phase := .accumulation
      subPhase := .A
      strength := 0
      support := currentPrice * (95/100)
      resistance := currentPrice * (105/100)
      indicators := calculateIndicators prices
      reasoning := "Insufficient data for analysis" }
  else
    let currentPrice := lastClose prices
    let indicators := calculateIndicators prices
    let levels := findKeyLevels prices
    let pick := classifyPhase
      (detectConsolidation prices).1
      (priceNearSupportB currentPrice levels.support)
      (priceNearResistanceB currentPrice levels.resistance)
      (rsiOversoldB indicators.rsi14) (rsiOverboughtB indicators.rsi14)
      (mfiOversoldB indicators.mfi14) (mfiOverboughtB indicators.mfi14)
      (macdBullishB indicators.macdHistogram) (macdBearishB indicators.macdHistogram)
      (hasHigherLows prices) (hasLowerHighs prices)
      (identifyTrend currentPrice indicators.ma20 indicators.ma50 indicators.ma200)
      (analyzeVolume prices)
      indicators.ma20 indicators.ma50
    { phase := pick.phase
      subPhase := pick.subPhase
      strength := min 100 pick.strength
      support := levels.support
      resistance := levels.resistance
      indicators := indicators
      reasoning := pick.reasoning.trim }

/-- `TargetCalculation` from `targets.ts:3`. -/
structure TargetCalculation where
  targetPrice : ℚ
  cutLossPrice : ℚ
  riskRewardRatio : ℚ
  potentialGainPercent : ℚ
  potentialLossPercent : ℚ
deriving DecidableEq, Repr

/-- `calculateTargetAndCutLoss` (targets.ts:12).  The `switch` covers all four
members of `WyckoffPhase`, so the source's `default` arm is unreachable and
the embedding matches on the four constructors.  `ma20 ? ma20*k : cp*k'` is
JavaScript truthiness (`null` and `0` both fall back).  `ma50` is accepted and
ignored, as in the source. -/
def calculateTargetAndCutLoss (currentPrice : ℚ) (phase : WyckoffPhase)
    (support resistance : ℚ) (ma20 : Option ℚ := none) (ma50 : Option ℚ := none) :
    TargetCalculation :=
  let tc : ℚ × ℚ :=
    match phase with
    | .accumulation =>
      let accRange := resistance - support
      (resistance + accRange * (1/2), support * (97/100))
    | .markup =>
      let markupCutLoss1 :=
        match ma20 with
        | some m => if m = 0 then currentPrice * (92/100) else m * (98/100)
        | none => currentPrice * (92/100)
      (currentPrice * (118/100), max markupCutLoss1 (currentPrice * (92/100)))
    | .distribution =>
      let distRange := resistance - support
      (support - distRange * (1/2), resistance * (103/100))
    | .markdown =>
      let mdCutLoss1 :=
        match ma20 with
        | some m => if m = 0 then currentPrice * (108/100) else m * (102/100)
        | none => currentPrice * (108/100)
      (currentPrice * (82/100), min mdCutLoss1 (currentPrice * (108/100)))
  let targetPrice := tc.1
  let cutLossPrice := tc.2
  let potentialGainPercent := (targetPrice - currentPrice) / currentPrice * 100
  let potentialLossPercent := (currentPrice - cutLossPrice) / currentPrice * 100
  let absGain := jsAbs potentialGainPercent
  let absLoss := jsAbs potentialLossPercent
  let riskRewardRatio := if absLoss > 0 then absGain / absLoss else 0
  { targetPrice := round2 targetPrice
    cutLossPrice := round2 cutLossPrice
    riskRewardRatio := round2 riskRewardRatio
    potentialGainPercent := round2 potentialGainPercent
    potentialLossPercent := round2 potentialLossPercent }

/-- Factor signal of `recommendation.ts`. -/
inductive Signal where
  | bullish
  | bearish
  | neutral
deriving DecidableEq, Repr

/-- `RecommendationFactor` from `recommendation.ts:17`.  The `description`
field (display-only string built with `toFixed`) is omitted: no verified
property mentions it. -/
structure RecommendationFactor where
  name : String
  signal : Signal
  weight : ℚ
deriving DecidableEq, Repr

/-- `RecommendationAction` from `recommendation.ts:3`. -/
inductive RecommendationAction where
  | STRONG_BUY
  | BUY
  | HOLD
  | SELL
  | STRONG_SELL
deriving DecidableEq, Repr

/-- `RecommendationInput` from `recommendation.ts:24`. -/
structure RecommendationInput where
  currentPrice : ℚ
  phase : WyckoffPhase
  subPhase : Option String
  strength : ℚ
  targetPrice : ℚ
  cutLossPrice : ℚ
  support : ℚ
  resistance : ℚ
  ma200 : Option ℚ
  rsi14 : Option ℚ
  foreignNetFlow : Option ℚ
  marketBreadthPercent : Option ℚ
deriving DecidableEq, Repr

/-- `analyzePhase` (recommendation.ts:135).  The `switch` covers all four
phases; the `default` arm (neutral, weight 0) is unreachable. -/
def analyzePhase (phase : WyckoffPhase) (subPhase : Option String) (strength : ℚ) :
    RecommendationFactor :=
  match phase with
  | .accumulation =>
    if subPhase = some "C" ∨ subPhase = some "D" then ⟨"Wyckoff Phase", .bullish, 30⟩
    else ⟨"Wyckoff Phase", .bullish, 30 * (7/10)⟩
  | .markup => ⟨"Wyckoff Phase", .bullish, 30 * (if strength > 60 then 1 else 8/10)⟩
  | .distribution =>
    if subPhase = some "C" ∨ subPhase = some "D" then ⟨"Wyckoff Phase", .bearish, 30⟩
    else ⟨"Wyckoff Phase", .bearish, 30 * (7/10)⟩
  | .markdown => ⟨"Wyckoff Phase", .bearish, 30⟩

/-- `analyzeMA200` (recommendation.ts:197). -/
def analyzeMA200 (currentPrice ma200 : ℚ) : RecommendationFactor :=
  let percentAbove := (currentPrice - ma200) / ma200 * 100
  if percentAbove > 10 then ⟨"MA200 Trend", .bullish, 20⟩
  else if percentAbove > 0 then ⟨"MA200 Trend", .bullish, 15⟩
  else if percentAbove > -10 then ⟨"MA200 Trend", .bearish, 15⟩
  else ⟨"MA200 Trend", .bearish, 20⟩

/-- `analyzeRSI` (recommendation.ts:231). -/
def analyzeRSI (rsi : ℚ) : RecommendationFactor :=
  if rsi < 30 then ⟨"RSI Momentum", .bullish, 15⟩
  else if rsi < 45 then ⟨"RSI Momentum", .neutral, 5⟩
  else if rsi < 55 then ⟨"RSI Momentum", .neutral, 0⟩
  else if rsi < 70 then ⟨"RSI Momentum", .bullish, 10⟩
  else ⟨"RSI Momentum", .bearish, 15⟩

/-- `analyzeForeignFlow` (recommendation.ts:270). -/
def analyzeForeignFlow (netFlow : ℚ) : RecommendationFactor :=
  if netFlow > 1000000 then ⟨"Foreign Flow", .bullish, 15⟩
  else if netFlow > 0 then ⟨"Foreign Flow", .bullish, 8⟩
  else if netFlow > -1000000 then ⟨"Foreign Flow", .bearish, 8⟩
  else ⟨"Foreign Flow", .bearish, 15⟩

/-- `analyzeMarketBreadth` (recommendation.ts:305). -/
def analyzeMarketBreadth (percentAboveMA200 : ℚ) : RecommendationFactor :=
  if percentAboveMA200 ≥ 70 then ⟨"Market Breadth", .bullish, 10⟩
  else if percentAboveMA200 ≥ 50 then ⟨"Market Breadth", .bullish, 7⟩
  else if percentAboveMA200 ≥ 30 then ⟨"Market Breadth", .bearish, 7⟩
  else ⟨"Market Breadth", .bearish, 10⟩

/-- `analyzeRiskReward` (recommendation.ts:337). -/
def analyzeRiskReward (currentPrice support resistance targetPrice cutLossPrice : ℚ) :
    RecommendationFactor :=
  let potentialGain := targetPrice - currentPrice
  let potentialLoss := currentPrice - cutLossPrice
  let rr := if potentialLoss > 0 then potentialGain / potentialLoss else 0
  let distanceToSupport := (currentPrice - support) / currentPrice * 100
  if rr ≥ 3 ∧ distanceToSupport < 5 then ⟨"Risk/Reward", .bullish, 10⟩
  else if rr ≥ 2 then ⟨"Risk/Reward", .bullish, 8⟩
  else if rr ≥ 1 then ⟨"Risk/Reward", .neutral, 3⟩
  else ⟨"Risk/Reward", .bearish, 10⟩

/-- `weight * (signal === 'bullish' ? 1 : signal === 'bearish' ? -1 : 0)`. -/
def signalSign : Signal → ℚ
  | .bullish => 1
  | .bearish => -1
  | .neutral => 0

/-- Signed contribution of one factor to the raw score
(`recommendation.ts:52` and the analogous lines per factor). -/
def factorContribution (f : RecommendationFactor) : ℚ := f.weight * signalSign f.signal

/-- Contribution of an optional factor: evaluated only when its input is
non-null (the `if (input.x !== null)` guards of `generateRecommendation`). -/
def optContribution (o : Option ℚ) (g : ℚ → RecommendationFactor) : ℚ :=
  match o with
  | some x => factorContribution (g x)
  | none => 0

/-- Weight added to `totalWeight` for an optional factor: its fixed constant
when the input is non-null, `0` otherwise. -/
def participWeight (o : Option ℚ) (w : ℚ) : ℚ := if o.isSome then w else 0

/-- The `totalWeight` accumulated by `generateRecommendation`
(recommendation.ts:45–95): fixed constants 30/20/15/15/10/10, the optional
ones only when their input is non-null. -/
def recommendationTotalWeight (input : RecommendationInput) : ℚ :=
  30 + participWeight input.ma200 20 + participWeight input.rsi14 15
    + participWeight input.foreignNetFlow 15 + participWeight input.marketBreadthPercent 10 + 10

/-- The `score` accumulated by `generateRecommendation` before normalization
(recommendation.ts:44–95): sum of the signed contributions of the evaluated
factors, in evaluation order. -/
def recommendationRawScore (input : RecommendationInput) : ℚ :=
  factorContribution (analyzePhase input.phase input.subPhase input.strength)
    + optContribution input.ma200 (analyzeMA200 input.currentPrice)
    + optContribution input.rsi14 analyzeRSI
    + optContribution input.foreignNetFlow analyzeForeignFlow
    + optContribution input.marketBreadthPercent analyzeMarketBreadth
    + factorContribution
        (analyzeRiskReward input.currentPrice input.support input.resistance
          input.targetPrice input.cutLossPrice)

/-- `normalizedScore` (recommendation.ts:98):
`totalWeight > 0 ? score / totalWeight * 100 : 0`. -/
def recommendationScore (input : RecommendationInput) : ℚ :=
  if recommendationTotalWeight input > 0 then
    recommendationRawScore input / recommendationTotalWeight input * 100
  else 0

/-- The `factors` array pushed by `generateRecommendation`, in evaluation
order. -/
def recommendationFactors (input : RecommendationInput) : List RecommendationFactor :=
  [analyzePhase input.phase input.subPhase input.strength]
    ++ (match input.ma200 with
        | some m => [analyzeMA200 input.currentPrice m]
        | none => [])
    ++ (match input.rsi14 with
        | some r => [analyzeRSI r]
        | none => [])
    ++ (match input.foreignNetFlow with
        | some f => [analyzeForeignFlow f]
        | none => [])
    ++ (match input.marketBreadthPercent with
        | some b => [analyzeMarketBreadth b]
        | none => [])
    ++ [analyzeRiskReward input.currentPrice input.support input.resistance
          input.targetPrice input.cutLossPrice]

/-- `scoreToAction` (recommendation.ts:383). -/
def scoreToAction (score : ℚ) : RecommendationAction :=
  if score ≥ 50 then .STRONG_BUY
  else if score ≥ 20 then .BUY
  else if score ≥ -20 then .HOLD
  else if score ≥ -50 then .SELL
  else .STRONG_SELL

/-- `calculateEntryRange` (recommendation.ts:391).  `phase` is accepted and
ignored, as in the source. -/
def calculateEntryRange (currentPrice support : ℚ) (_phase : WyckoffPhase)
    (action : RecommendationAction) : ℚ × ℚ :=
  if action = .STRONG_BUY ∨ action = .BUY then
    let buffer := currentPrice * (2/100)
    (max support (currentPrice - buffer), currentPrice + buffer)
  else if action = .HOLD then
    (currentPrice * (98/100), currentPrice * (102/100))
  else
    (0, 0)

/-- `StockRecommendation` from `recommendation.ts:5`; the display-only
`summary` string is omitted (no verified property mentions it). -/
structure StockRecommendation where
  action : RecommendationAction
  confidence : ℚ
  entryPriceMin : ℚ
  entryPriceMax : ℚ
  targetPrice : ℚ
  stopLoss : ℚ
  riskRewardRatio : ℚ
  factors : List RecommendationFactor
deriving DecidableEq, Repr

/-- `generateRecommendation` (recommendation.ts:42). -/
def generateRecommendation (input : RecommendationInput) : StockRecommendation :=
  let normalizedScore := recommendationScore input
  let action := scoreToAction normalizedScore
  let confidence := min 100 (jsAbs normalizedScore + 20)
  let er := calculateEntryRange input.currentPrice input.support input.phase action
  let potentialGain := input.targetPrice - input.currentPrice
  let potentialLoss := input.currentPrice - input.cutLossPrice
  let riskRewardRatio := if potentialLoss > 0 then potentialGain / potentialLoss else 0
  { action := action
    confidence := (jsRound confidence : ℚ)
    entryPriceMin := er.1
    entryPriceMax := er.2
    targetPrice := input.targetPrice
    stopLoss := input.cutLossPrice
    riskRewardRatio := round2 riskRewardRatio
    factors := recommendationFactors input }

/-- Modelled from the spec's volume-ratio wording (for comparison with the
source): the exact arithmetic mean of the last 20 volumes, with no rounding. -/
def specVolumeAvg20 (prices : List HistoricalPrice) : Option ℚ :=
  if 20 ≤ prices.length then
    some (((prices.map (·.volume)).drop (prices.length - 20)).sum / 20)
  else none

/-- Modelled from the spec's recommendation-scorer wording (for comparison
with the source): every evaluated factor contributes plus or minus its fixed
constant weight (30/20/15/15/10/10) according to its signal, normalized by
the sum of the participating fixed weights. -/
def claimFixedScore (input : RecommendationInput) : ℚ :=
  let raw := 30 * signalSign (analyzePhase input.phase input.subPhase input.strength).signal
    + (match input.ma200 with
       | some m => 20 * signalSign (analyzeMA200 input.currentPrice m).signal
       | none => 0)
    + (match input.rsi14 with
       | some r => 15 * signalSign (analyzeRSI r).signal
       | none => 0)
    + (match input.foreignNetFlow with
       | some f => 15 * signalSign (analyzeForeignFlow f).signal
       | none => 0)
    + (match input.marketBreadthPercent with
       | some b => 10 * signalSign (analyzeMarketBreadth b).signal
       | none => 0)
    + 10 * signalSign (analyzeRiskReward input.currentPrice input.support input.resistance
        input.targetPrice input.cutLossPrice).signal
  raw / recommendationTotalWeight input * 100

/-- All-null indicator set returned for an empty series. -/
def emptyIndicators : TechnicalIndicators :=
  ⟨none, none, none, none, none, none, none, none, none, none⟩

/-- C10: on an empty price series `detectWyckoffPhase` totally returns the
insufficient-data result: phase `accumulation`, sub-phase `A`, strength `0`,
support and resistance `0` (the missing last close is replaced by `0`), every
indicator `null`, and the insufficient-data reasoning. -/
theorem detectWyckoffPhase_empty :
    detectWyckoffPhase [] =
      { phase := .accumulation, subPhase := .A, strength := 0, support := 0, resistance := 0,
        indicators := emptyIndicators, reasoning := "Insufficient data for analysis" } := by
  norm_num [detectWyckoffPhase, lastClose, calculateIndicators, emptyIndicators]

/-- C4 (amended): with at least 20 bars, `volumeAvg20` is `Math.round` of the
mean of the last 20 volumes (an integer), and `volumeRatio` is the current
volume divided by that rounded mean — `null` when the rounded mean is `0`;
with fewer than 20 bars both are `null`. -/
theorem volumeStats_amended (prices : List HistoricalPrice) :
    (calculateIndicators prices).volumeAvg20 =
      (if 20 ≤ prices.length then
        some (jsRound (((prices.map (·.volume)).drop (prices.length - 20)).sum / 20))
      else none)
    ∧ (calculateIndicators prices).volumeRatio =
      (if 20 ≤ prices.length then
        (if jsRound (((prices.map (·.volume)).drop (prices.length - 20)).sum / 20) = 0 then none
         else some ((prices.map (·.volume)).getD (prices.length - 1) 0
           / (jsRound (((prices.map (·.volume)).drop (prices.length - 20)).sum / 20) : ℚ)))
      else none) := by
  by_cases h0 : prices.length = 0
  · simp [calculateIndicators, h0]
  · rw [calculateIndicators, if_neg h0]
    by_cases h20 : 20 ≤ prices.length
    · simp only [List.length_map, if_pos h20]
      exact ⟨trivial, trivial⟩
    · simp only [List.length_map, if_neg h20]
      exact ⟨trivial, trivial⟩

/-- 19 zero-volume bars followed by one bar of volume 10: the mean of the
last 20 volumes is 1/2, which `Math.round` turns into 1. -/
def c4bars : List HistoricalPrice :=
  List.replicate 19 ⟨100, 100, 100, 100, 0⟩ ++ [⟨100, 100, 100, 100, 10⟩]

/-- C4 counterexample: the stored `volumeAvg20` is the *rounded* mean, not
the exact arithmetic mean — on `c4bars` the source computes `1` while the
exact mean of the last 20 volumes is `1/2`. -/
theorem volumeAvg20_not_exact_mean :
    ((calculateIndicators c4bars).volumeAvg20.map (fun z => (z : ℚ))) ≠ specVolumeAvg20 c4bars := by
  norm_num [calculateIndicators, specVolumeAvg20, c4bars, jsRound, List.replicate,
    List.getD, Int.floor_eq_iff]

/-- Length of `calculateEMA`: empty below `period`, else `len - period + 1`. -/
lemma calculateEMA_length (prices : List ℚ) (period : ℕ) :
    (calculateEMA prices period).length =
      if prices.length < period then 0 else prices.length - period + 1 := by
  unfold calculateEMA
  split
  · rfl
  · simp [List.length_scanl]

/-- A `filterMap` whose function is `some` on every element preserves length. -/
lemma length_filterMap_of_isSome {α β : Type} (f : α → Option β) (l : List α)
    (h : ∀ a ∈ l, (f a).isSome) : (l.filterMap f).length = l.length := by
  induction l with
  | nil => rfl
  | cons x xs ih =>
    have hx := h x (List.mem_cons_self x xs)
    rcases hfx : f x with _ | v
    · rw [hfx] at hx; simp at hx
    · rw [List.filterMap_cons, hfx]
      simp [ih (fun a ha => h a (List.mem_cons_of_mem _ ha))]

/-- When the slow EMA plus the index offset always lands inside the fast EMA,
the MACD alignment keeps one value per slow-EMA entry. -/
lemma alignMACD_length (fastEMA slowEMA : List ℚ) (fastPeriod slowPeriod : ℕ)
    (hfs : fastPeriod ≤ slowPeriod)
    (h : slowEMA.length + (slowPeriod - fastPeriod) ≤ fastEMA.length) :
    (alignMACD fastEMA slowEMA fastPeriod slowPeriod).length = slowEMA.length := by
  unfold alignMACD
  rw [length_filterMap_of_isSome, List.length_range]
  intro i hi
  rw [List.mem_range] at hi
  have h1 : (0:ℤ) ≤ (i:ℤ) + (slowPeriod:ℤ) - (fastPeriod:ℤ) := by omega
  have h2 : (i:ℤ) + (slowPeriod:ℤ) - (fastPeriod:ℤ) < (fastEMA.length : ℤ) := by omega
  simp [h1, h2]

/-- C5: with the default periods (12, 26, 9), `calculateMACD` returns the
all-null triple exactly when the input has fewer than 35 (= slow + signal)
entries, and returns three non-null fields on every input of length ≥ 35. -/
theorem calculateMACD_null_iff (prices : List ℚ) :
    (calculateMACD prices 12 26 9 = ⟨none, none, none⟩ ↔ prices.length < 35)
    ∧ (35 ≤ prices.length →
        ∃ m s h, calculateMACD prices 12 26 9 = ⟨some m, some s, some h⟩) := by
  have key : 35 ≤ prices.length →
      ∃ m s h, calculateMACD prices 12 26 9 = ⟨some m, some s, some h⟩ := by
    intro h35
    have hf : (calculateEMA prices 12).length = prices.length - 12 + 1 := by
      rw [calculateEMA_length, if_neg (by omega)]
    have hs : (calculateEMA prices 26).length = prices.length - 26 + 1 := by
      rw [calculateEMA_length, if_neg (by omega)]
    have hm : (alignMACD (calculateEMA prices 12) (calculateEMA prices 26) 12 26).length
        = prices.length - 26 + 1 := by
      rw [alignMACD_length _ _ _ _ (by omega) (by rw [hf, hs]; omega), hs]
    have hsig : (calculateEMA
        (alignMACD (calculateEMA prices 12) (calculateEMA prices 26) 12 26) 9).length
        = (prices.length - 26 + 1) - 9 + 1 := by
      rw [calculateEMA_length, hm, if_neg (by omega)]
    unfold calculateMACD
    rw [if_neg (by omega)]
    simp only []
    rw [if_neg (by rw [hf, hs]; omega), if_neg (by rw [hm]; omega), if_pos (by rw [hsig]; omega)]
    exact ⟨_, _, _, rfl⟩
  refine ⟨⟨?_, ?_⟩, key⟩
  · intro heq
    by_contra hge
    push_neg at hge
    obtain ⟨m, s, h, hmsh⟩ := key hge
    rw [hmsh] at heq
    simp at heq
  · intro hlt
    unfold calculateMACD
    rw [if_pos (by omega)]

/-- A 35-entry price list for exercising `calculateMACD_null_iff`. -/
def macdDemoPrices : List ℚ := List.replicate 35 100

/-- Witness for C5: on a concrete 35-entry list the theorem yields three
non-null MACD fields. -/
theorem calculateMACD_null_iff_witness :
    ∃ m s h, calculateMACD macdDemoPrices 12 26 9 = ⟨some m, some s, some h⟩ :=
  (calculateMACD_null_iff macdDemoPrices).2 (by norm_num [macdDemoPrices])

/-- On a `<`-chain, every adjacent difference `next - prev` is positive. -/
lemma zipWith_diff_pos (l : List ℚ) (hl : List.Chain' (· < ·) l) :
    ∀ c ∈ List.zipWith (fun a b => b - a) l l.tail, 0 < c := by
  induction l with
  | nil => simp
  | cons x xs ih =>
    cases xs with
    | nil => simp
    | cons y rest =>
      rw [List.chain'_cons] at hl
      intro c hc
      simp only [List.tail_cons, List.zipWith_cons_cons, List.mem_cons] at hc
      rcases hc with rfl | hc
      · linarith [hl.1]
      · exact ih hl.2 c hc

/-- The seed loop of `calculateRSI` never touches the loss bucket when every
change is positive. -/
lemma rsi_seed_loss_zero (l : List ℚ) :
    ∀ g : ℚ, (∀ c ∈ l, 0 < c) →
      (l.foldl (fun (gl : ℚ × ℚ) c => if c > 0 then (gl.1 + c, gl.2) else (gl.1, gl.2 + jsAbs c))
        (g, 0)).2 = 0 := by
  induction l with
  | nil => intro g _; rfl
  | cons c cs ih =>
    intro g hpos
    rw [List.foldl_cons, if_pos (hpos c (List.mem_cons_self c cs))]
    exact ih _ (fun d hd => hpos d (List.mem_cons_of_mem _ hd))

/-- The Wilder smoothing loop of `calculateRSI` keeps a zero loss average
when every change is positive. -/
lemma rsi_smooth_loss_zero (l : List ℚ) (period : ℕ) :
    ∀ g : ℚ, (∀ c ∈ l, 0 < c) →
      (l.foldl (fun (gl : ℚ × ℚ) c =>
        if c > 0 then
          ((gl.1 * ((period : ℚ) - 1) + c) / (period : ℚ), gl.2 * ((period : ℚ) - 1) / (period : ℚ))
        else
          (gl.1 * ((period : ℚ) - 1) / (period : ℚ), (gl.2 * ((period : ℚ) - 1) + jsAbs c) / (period : ℚ)))
        (g, 0)).2 = 0 := by
  induction l with
  | nil => intro g _; rfl
  | cons c cs ih =>
    intro g hpos
    rw [List.foldl_cons, if_pos (hpos c (List.mem_cons_self c cs))]
    have hz : (0 : ℚ) * ((period : ℚ) - 1) / (period : ℚ) = 0 := by ring
    rw [hz]
    exact ih _ (fun d hd => hpos d (List.mem_cons_of_mem _ hd))

/-- C7: on a strictly monotonically increasing closing-price series of length
at least 15, `calculateRSI` with period 14 returns exactly 100 — the smoothed
average loss stays exactly 0 throughout the recurrence. -/
theorem calculateRSI_strictly_rising (prices : List ℚ) (hlen : 15 ≤ prices.length)
    (hmono : List.Chain' (· < ·) prices) : calculateRSI prices 14 = some 100 := by
  have hchanges : ∀ c ∈ List.zipWith (fun a b : ℚ => b - a) prices prices.tail, 0 < c :=
    zipWith_diff_pos prices hmono
  unfold calculateRSI
  rw [if_neg (by omega)]
  simp only []
  set seed := ((List.zipWith (fun a b : ℚ => b - a) prices prices.tail).take 14).foldl
    (fun (gl : ℚ × ℚ) c => if c > 0 then (gl.1 + c, gl.2) else (gl.1, gl.2 + jsAbs c)) (0, 0)
    with hseeddef
  have hseed : seed.2 = 0 :=
    rsi_seed_loss_zero _ 0 (fun c hc => hchanges c (List.mem_of_mem_take hc))
  have hstart : (seed.1 / ((14 : ℕ) : ℚ), seed.2 / ((14 : ℕ) : ℚ)) = (seed.1 / ((14 : ℕ) : ℚ), 0) := by
    rw [hseed]; norm_num
  rw [hstart]
  have hfin : (((List.zipWith (fun a b : ℚ => b - a) prices prices.tail).drop 14).foldl
      (fun (gl : ℚ × ℚ) c =>
        if c > 0 then
          ((gl.1 * (((14 : ℕ) : ℚ) - 1) + c) / ((14 : ℕ) : ℚ),
            gl.2 * (((14 : ℕ) : ℚ) - 1) / ((14 : ℕ) : ℚ))
        else
          (gl.1 * (((14 : ℕ) : ℚ) - 1) / ((14 : ℕ) : ℚ),
            (gl.2 * (((14 : ℕ) : ℚ) - 1) + jsAbs c) / ((14 : ℕ) : ℚ)))
      (seed.1 / ((14 : ℕ) : ℚ), 0)).2 = 0 :=
    rsi_smooth_loss_zero _ 14 _ (fun c hc => hchanges c (List.mem_of_mem_drop hc))
  rw [if_pos hfin]

/-- A strictly rising 15-price list for exercising the RSI boundary. -/
def rsiDemoPrices : List ℚ := [1, 2, 3, 4, 5, 6, 7, 8, 9, 10, 11, 12, 13, 14, 15]

/-- Witness for C7 at a concrete strictly increasing series. -/
theorem calculateRSI_strictly_rising_witness : calculateRSI rsiDemoPrices 14 = some 100 :=
  calculateRSI_strictly_rising rsiDemoPrices (by norm_num [rsiDemoPrices])
    (by norm_num [rsiDemoPrices, List.chain'_cons, List.chain'_singleton])

/-- `round2` never rounds down by more than half a cent. -/
lemma round2_gt (x : ℚ) : x - 1/200 < round2 x := by
  have h := Int.sub_one_lt_floor (x * 100 + 1/2)
  unfold round2 jsRound
  rw [lt_div_iff (show (0:ℚ) < 100 by norm_num)]
  linarith

/-- `round2` never rounds up by more than half a cent. -/
lemma round2_le (x : ℚ) : round2 x ≤ x + 1/200 := by
  have h := Int.floor_le (x * 100 + 1/2)
  unfold round2 jsRound
  rw [div_le_iff (show (0:ℚ) < 100 by norm_num)]
  linarith

/-- C6 counterexample: in the `markup` phase with `ma20 = 200` (above the
current price 100) and support/resistance bracketing the price normally
(90 < 100 < 110), the returned cut-loss `max(ma20*0.98, price*0.92) = 196` is
*above* the current price, so the claim's "for all values of ma20" fails. -/
theorem calculateTargetAndCutLoss_cutLoss_not_below :
    ¬ ((calculateTargetAndCutLoss 100 .markup 90 110 (some 200) none).cutLossPrice < 100) := by
  norm_num [calculateTargetAndCutLoss, round2, jsRound, max_def]

/-- C6 (amended): for `phase ∈ {accumulation, markup}` with
`1 ≤ support < currentPrice`, `resistance` at least a cent above the price,
and `ma20` (when provided) not above the current price, the returned target is
strictly above and the cut-loss strictly below the current price, for every
`ma50`.  (The extra hypotheses are forced by the `ma20`-based markup stop and
by the 2-decimal rounding of the outputs.) -/
theorem calculateTargetAndCutLoss_long_sanity (currentPrice support resistance : ℚ)
    (phase : WyckoffPhase) (ma20 ma50 : Option ℚ)
    (hphase : phase = .accumulation ∨ phase = .markup)
    (hs1 : 1 ≤ support) (hsc : support < currentPrice)
    (hcr : currentPrice + 1/100 ≤ resistance)
    (hma : ∀ a, ma20 = some a → a ≤ currentPrice) :
    currentPrice < (calculateTargetAndCutLoss currentPrice phase support resistance ma20 ma50).targetPrice
    ∧ (calculateTargetAndCutLoss currentPrice phase support resistance ma20 ma50).cutLossPrice
        < currentPrice := by
  rcases hphase with rfl | rfl
  · unfold calculateTargetAndCutLoss
    simp only []
    constructor
    · have h := round2_gt (resistance + (resistance - support) * (1/2))
      linarith
    · have h := round2_le (support * (97/100))
      linarith
  · have hcp : 1 < currentPrice := lt_of_le_of_lt hs1 hsc
    rcases ma20 with _ | a
    · unfold calculateTargetAndCutLoss
      simp only [max_self]
      constructor
      · have h := round2_gt (currentPrice * (118/100))
        linarith
      · have h := round2_le (currentPrice * (92/100))
        linarith
    · have ha : a ≤ currentPrice := hma a rfl
      unfold calculateTargetAndCutLoss
      simp only []
      constructor
      · have h := round2_gt (currentPrice * (118/100))
        linarith
      · by_cases hz : a = 0
        · rw [if_pos hz, max_self]
          have h := round2_le (currentPrice * (92/100))
          linarith
        · rw [if_neg hz]
          have hmax : max (a * (98/100)) (currentPrice * (92/100)) ≤ currentPrice * (98/100) :=
            max_le (by linarith) (by linarith)
          have h := round2_le (max (a * (98/100)) (currentPrice * (92/100)))
          linarith

/-- Witness for the amended C6 at concrete inputs. -/
theorem calculateTargetAndCutLoss_long_sanity_witness :
    100 < (calculateTargetAndCutLoss 100 .markup 90 110 (some 95) none).targetPrice
    ∧ (calculateTargetAndCutLoss 100 .markup 90 110 (some 95) none).cutLossPrice < 100 :=
  calculateTargetAndCutLoss_long_sanity 100 90 110 .markup (some 95) none
    (Or.inr rfl) (by norm_num) (by norm_num) (by norm_num)
    (by intro a ha; injection ha with h; rw [← h]; norm_num)

/-- The phase factor's signed contribution is within plus/minus its fixed
weight 30. -/
lemma analyzePhase_contrib (p : WyckoffPhase) (sp : Option String) (st : ℚ) :
    -30 ≤ factorContribution (analyzePhase p sp st)
    ∧ factorContribution (analyzePhase p sp st) ≤ 30 := by
  cases p <;> simp only [analyzePhase, factorContribution, signalSign] <;>
    first
    | (split_ifs <;> norm_num)
    | norm_num

/-- The MA200 factor's signed contribution is within plus/minus 20. -/
lemma analyzeMA200_contrib (cp m : ℚ) :
    -20 ≤ factorContribution (analyzeMA200 cp m)
    ∧ factorContribution (analyzeMA200 cp m) ≤ 20 := by
  simp only [analyzeMA200, factorContribution, signalSign]
  split_ifs <;> norm_num

/-- The RSI factor's signed contribution is within plus/minus 15. -/
lemma analyzeRSI_contrib (r : ℚ) :
    -15 ≤ factorContribution (analyzeRSI r) ∧ factorContribution (analyzeRSI r) ≤ 15 := by
  simp only [analyzeRSI, factorContribution, signalSign]
  split_ifs <;> norm_num

/-- The foreign-flow factor's signed contribution is within plus/minus 15. -/
lemma analyzeForeignFlow_contrib (f : ℚ) :
    -15 ≤ factorContribution (analyzeForeignFlow f)
    ∧ factorContribution (analyzeForeignFlow f) ≤ 15 := by
  simp only [analyzeForeignFlow, factorContribution, signalSign]
  split_ifs <;> norm_num

/-- The market-breadth factor's signed contribution is within plus/minus 10. -/
lemma analyzeMarketBreadth_contrib (b : ℚ) :
    -10 ≤ factorContribution (analyzeMarketBreadth b)
    ∧ factorContribution (analyzeMarketBreadth b) ≤ 10 := by
  simp only [analyzeMarketBreadth, factorContribution, signalSign]
  split_ifs <;> norm_num

/-- The risk/reward factor's signed contribution is within plus/minus 10. -/
lemma analyzeRiskReward_contrib (cp s r t c : ℚ) :
    -10 ≤ factorContribution (analyzeRiskReward cp s r t c)
    ∧ factorContribution (analyzeRiskReward cp s r t c) ≤ 10 := by
  simp only [analyzeRiskReward, factorContribution, signalSign]
  split_ifs <;> norm_num

/-- An optional factor's contribution is within plus/minus its participation
weight. -/
lemma optContribution_bound (o : Option ℚ) (g : ℚ → RecommendationFactor) (cap : ℚ)
    (hg : ∀ x, -cap ≤ factorContribution (g x) ∧ factorContribution (g x) ≤ cap)
    (hcap : 0 ≤ cap) :
    -(participWeight o cap) ≤ optContribution o g ∧ optContribution o g ≤ participWeight o cap := by
  rcases o with _ | x
  · simp [optContribution, participWeight]
  · simpa [optContribution, participWeight] using hg x

/-- The accumulated total weight is positive (at least the two mandatory
factors, 30 + 10). -/
lemma recommendationTotalWeight_pos (input : RecommendationInput) :
    0 < recommendationTotalWeight input := by
  unfold recommendationTotalWeight participWeight
  split_ifs <;> norm_num

/-- Dividing a sum bounded by the total and scaling by 100 stays in
[-100, 100]. -/
lemma div_mul_bound (raw total : ℚ) (h0 : 0 < total) (hlo : -total ≤ raw)
    (hhi : raw ≤ total) : -100 ≤ raw / total * 100 ∧ raw / total * 100 ≤ 100 := by
  constructor
  · rw [div_mul_eq_mul_div, le_div_iff h0]
    nlinarith
  · rw [div_mul_eq_mul_div, div_le_iff h0]
    nlinarith

/-- C3 (amended): each factor contributes its signal sign times the weight
*returned by its analyzer* (which can be below the fixed constant), the
denominator uses the fixed participating weights, and the normalized score
always lies in [-100, 100]. -/
theorem recommendationScore_bounds (input : RecommendationInput) :
    -100 ≤ recommendationScore input ∧ recommendationScore input ≤ 100 := by
  have h1 := analyzePhase_contrib input.phase input.subPhase input.strength
  have h2 := optContribution_bound input.ma200 (analyzeMA200 input.currentPrice) 20
    (fun m => analyzeMA200_contrib input.currentPrice m) (by norm_num)
  have h3 := optContribution_bound input.rsi14 analyzeRSI 15 analyzeRSI_contrib (by norm_num)
  have h4 := optContribution_bound input.foreignNetFlow analyzeForeignFlow 15
    analyzeForeignFlow_contrib (by norm_num)
  have h5 := optContribution_bound input.marketBreadthPercent analyzeMarketBreadth 10
    analyzeMarketBreadth_contrib (by norm_num)
  have h6 := analyzeRiskReward_contrib input.currentPrice input.support input.resistance
    input.targetPrice input.cutLossPrice
  have hpos := recommendationTotalWeight_pos input
  unfold recommendationScore
  rw [if_pos hpos]
  apply div_mul_bound _ _ hpos
  · unfold recommendationRawScore recommendationTotalWeight
    unfold recommendationTotalWeight at hpos
    linarith [h1.1, h2.1, h3.1, h4.1, h5.1, h6.1]
  · unfold recommendationRawScore recommendationTotalWeight
    linarith [h1.2, h2.2, h3.2, h4.2, h5.2, h6.2]

/-- Concrete recommendation input: markup phase at strength 50 with RSI 60 —
both the phase analyzer (weight 24 = 30·0.8) and the RSI analyzer
(weight 10, not 15) return less than their fixed constants. -/
def c3input : RecommendationInput :=
  { currentPrice := 100, phase := .markup, subPhase := some "D", strength := 50,
    targetPrice := 118, cutLossPrice := 92, support := 90, resistance := 120,
    ma200 := none, rsi14 := some 60, foreignNetFlow := none, marketBreadthPercent := none }

/-- C3 counterexample: the source's normalized score uses the analyzer-returned
weights (here 24 + 10 + 8 over fixed total 55, i.e. 840/11), not the fixed
constants of the claim (which would give 100). -/
theorem recommendationScore_ne_claimFixedScore :
    recommendationScore c3input ≠ claimFixedScore c3input := by
  norm_num [recommendationScore, claimFixedScore, recommendationRawScore,
    recommendationTotalWeight, participWeight, optContribution, factorContribution,
    signalSign, analyzePhase, analyzeRSI, analyzeRiskReward, c3input]

/-- The raw strength chosen by the rule chain is never negative (every branch
starts from a nonnegative base and only adds nonnegative bonuses). -/
lemma classifyPhase_strength_nonneg (a b c d e f g h i j k : Bool) (t : Trend)
    (v : VolumePattern) (m1 m2 : Option ℚ) :
    0 ≤ (classifyPhase a b c d e f g h i j k t v m1 m2).strength := by
  unfold classifyPhase
  split_ifs <;> norm_num

/-- The rule chain only ever assigns sub-phases A, B, C or D. -/
lemma classifyPhase_subPhase_ne_E (a b c d e f g h i j k : Bool) (t : Trend)
    (v : VolumePattern) (m1 m2 : Option ℚ) :
    (classifyPhase a b c d e f g h i j k t v m1 m2).subPhase ≠ .E := by
  unfold classifyPhase
  split_ifs <;> simp

/-- When the consolidation flag holds together with at least one of the
near-support / RSI-oversold / MFI-oversold triggers, the first rule fires and
the phase is accumulation — regardless of the trend flags. -/
lemma classifyPhase_accumulation (a b c d e f g h i j k : Bool) (t : Trend)
    (v : VolumePattern) (m1 m2 : Option ℚ)
    (ha : a = true) (htrig : b = true ∨ d = true ∨ f = true) :
    (classifyPhase a b c d e f g h i j k t v m1 m2).phase = .accumulation := by
  unfold classifyPhase
  rw [if_pos ⟨ha, by rcases htrig with h' | h' | h'
                     exacts [Or.inl h', Or.inr (Or.inl h'), Or.inr (Or.inr h')]⟩]

/-- OHLC validity of a bar list: nonnegative fields, `high` at least both
`open` and `close`, `low` at most both. -/
def OHLCValid (prices : List HistoricalPrice) : Prop :=
  ∀ b ∈ prices, 0 ≤ b.open' ∧ 0 ≤ b.high ∧ 0 ≤ b.low ∧ 0 ≤ b.close ∧ 0 ≤ b.volume ∧
    b.low ≤ b.high ∧ max b.open' b.close ≤ b.high ∧ b.low ≤ min b.open' b.close

/-- C1: on every OHLC-valid series of length at least 50 the classifier
returns exactly one of the four phases, one of the five sub-phases, and a
strength in [0, 100]. -/
theorem detectWyckoffPhase_totality (prices : List HistoricalPrice)
    (h50 : 50 ≤ prices.length) (hvalid : OHLCValid prices) :
    ((detectWyckoffPhase prices).phase = .accumulation
      ∨ (detectWyckoffPhase prices).phase = .markup
      ∨ (detectWyckoffPhase prices).phase = .distribution
      ∨ (detectWyckoffPhase prices).phase = .markdown)
    ∧ ((detectWyckoffPhase prices).subPhase = .A
      ∨ (detectWyckoffPhase prices).subPhase = .B
      ∨ (detectWyckoffPhase prices).subPhase = .C
      ∨ (detectWyckoffPhase prices).subPhase = .D
      ∨ (detectWyckoffPhase prices).subPhase = .E)
    ∧ 0 ≤ (detectWyckoffPhase prices).strength
    ∧ (detectWyckoffPhase prices).strength ≤ 100 := by
  refine ⟨?_, ?_, ?_, ?_⟩
  · cases hp : (detectWyckoffPhase prices).phase <;> simp
  · cases hs : (detectWyckoffPhase prices).subPhase <;> simp
  · unfold detectWyckoffPhase
    split
    · norm_num
    · exact le_min (by norm_num) (classifyPhase_strength_nonneg _ _ _ _ _ _ _ _ _ _ _ _ _ _ _)
  · unfold detectWyckoffPhase
    split
    · norm_num
    · exact min_le_left _ _

/-- A flat, OHLC-valid bar. -/
def flatBar (c : ℚ) : HistoricalPrice := ⟨c, c, c, c, 1000⟩

/-- 50 identical flat bars. -/
def c1bars : List HistoricalPrice := List.replicate 50 (flatBar 100)

/-- Witness for C1 on a concrete 50-bar series. -/
theorem detectWyckoffPhase_totality_witness :
    ((detectWyckoffPhase c1bars).phase = .accumulation
      ∨ (detectWyckoffPhase c1bars).phase = .markup
      ∨ (detectWyckoffPhase c1bars).phase = .distribution
      ∨ (detectWyckoffPhase c1bars).phase = .markdown)
    ∧ ((detectWyckoffPhase c1bars).subPhase = .A
      ∨ (detectWyckoffPhase c1bars).subPhase = .B
      ∨ (detectWyckoffPhase c1bars).subPhase = .C
      ∨ (detectWyckoffPhase c1bars).subPhase = .D
      ∨ (detectWyckoffPhase c1bars).subPhase = .E)
    ∧ 0 ≤ (detectWyckoffPhase c1bars).strength
    ∧ (detectWyckoffPhase c1bars).strength ≤ 100 :=
  detectWyckoffPhase_totality c1bars (by norm_num [c1bars])
    (by
      intro b hb
      simp only [c1bars] at hb
      have hbeq := List.eq_of_mem_replicate hb
      subst hbeq
      norm_num [flatBar])

/-- C9: the classifier never returns sub-phase E on any input — every branch
of the rule chain (and the insufficient-data path) assigns A, B, C or D. -/
theorem detectWyckoffPhase_subPhase_ne_E (prices : List HistoricalPrice) :
    (detectWyckoffPhase prices).subPhase ≠ WyckoffSubPhase.E := by
  unfold detectWyckoffPhase
  split
  · simp
  · exact classifyPhase_subPhase_ne_E _ _ _ _ _ _ _ _ _ _ _ _ _ _ _

/-- C2: on a series of length at least 50, whenever the consolidation flag
holds together with one of the near-support / RSI-oversold / MFI-oversold
triggers, the phase is accumulation — the consolidation rule is evaluated
before the trend-only markup rule, so this holds even when the trend is
bullish. -/
theorem detectWyckoffPhase_consolidation_first (prices : List HistoricalPrice)
    (h50 : 50 ≤ prices.length)
    (hcons : (detectConsolidation prices).1 = true)
    (htrig : priceNearSupportB (lastClose prices) (findKeyLevels prices).support = true
      ∨ rsiOversoldB (calculateIndicators prices).rsi14 = true
      ∨ mfiOversoldB (calculateIndicators prices).mfi14 = true) :
    (detectWyckoffPhase prices).phase = .accumulation := by
  unfold detectWyckoffPhase
  rw [if_neg (by omega)]
  exact classifyPhase_accumulation _ _ _ _ _ _ _ _ _ _ _ _ _ _ _ hcons htrig

/-- 50 flat bars with a single dip low (98) at index 40: consolidating, with
a real pivot support just below the last close. -/
def c2bars : List HistoricalPrice := [
    flatBar 100, flatBar 100, flatBar 100, flatBar 100, flatBar 100,
    flatBar 100, flatBar 100, flatBar 100, flatBar 100, flatBar 100,
    flatBar 100, flatBar 100, flatBar 100, flatBar 100, flatBar 100,
    flatBar 100, flatBar 100, flatBar 100, flatBar 100, flatBar 100,
    flatBar 100, flatBar 100, flatBar 100, flatBar 100, flatBar 100,
    flatBar 100, flatBar 100, flatBar 100, flatBar 100, flatBar 100,
    flatBar 100, flatBar 100, flatBar 100, flatBar 100, flatBar 100,
    flatBar 100, flatBar 100, flatBar 100, flatBar 100, flatBar 100,
    ⟨100, 100, 98, 100, 1000⟩, flatBar 100, flatBar 100, flatBar 100, flatBar 100,
    flatBar 100, flatBar 100, flatBar 100, flatBar 100, flatBar 100]

set_option maxHeartbeats 4000000 in
/-- Witness for C2 on a concrete consolidating series whose pivot support is
within 5% of the close. -/
theorem detectWyckoffPhase_consolidation_first_witness :
    (detectWyckoffPhase c2bars).phase = .accumulation := by
  apply detectWyckoffPhase_consolidation_first c2bars (by norm_num [c2bars, flatBar])
    (by norm_num [detectConsolidation, c2bars, flatBar, listMax, listMin])
  refine Or.inl ?_
  have hlc : lastClose c2bars = 100 := rfl
  have hpiv : findPivots c2bars = [98] := by
    norm_num [findPivots, c2bars, flatBar, List.range_succ]
  have hsc : supportCandidates c2bars = [98] := by
    rw [supportCandidates, hpiv, hlc]
    norm_num [List.insertionSort, List.orderedInsert]
  have hsup : (findKeyLevels c2bars).support = 98 := by
    rw [findKeyLevels, if_neg (by norm_num [c2bars, flatBar])]
    simp only [hsc, List.head?_cons, jsOrElse]
    norm_num
  rw [hlc, hsup]
  norm_num [priceNearSupportB]

/-- C8: with at least 20 bars, whenever both levels come from real pivots
(nonzero heads of the sorted candidate lists, so neither `|| fallback` fires),
the support is strictly below and the resistance strictly above the current
close; with fewer than 20 bars the result is the synthetic ±5% band around
the latest close. -/
theorem findKeyLevels_bracket (prices : List HistoricalPrice) :
    (∀ s r, 20 ≤ prices.length →
      (∀ b ∈ prices, 0 < b.open' ∧ 0 < b.high ∧ 0 < b.low ∧ 0 < b.close) →
      (supportCandidates prices).head? = some s → s ≠ 0 →
      (resistanceCandidates prices).head? = some r → r ≠ 0 →
      (findKeyLevels prices).support < lastClose prices
        ∧ lastClose prices < (findKeyLevels prices).resistance)
    ∧ (prices.length < 20 →
      (findKeyLevels prices).support = lastClose prices * (95/100)
        ∧ (findKeyLevels prices).resistance = lastClose prices * (105/100)) := by
  constructor
  · intro s r h20 _hpos hs hs0 hr hr0
    have hsm : s ∈ supportCandidates prices := by
      rcases hl : supportCandidates prices with _ | ⟨x, xs⟩
      · rw [hl] at hs; simp at hs
      · rw [hl] at hs
        simp only [List.head?_cons, Option.some.injEq] at hs
        rw [← hs]
        exact List.mem_cons_self _ _
    have hrm : r ∈ resistanceCandidates prices := by
      rcases hl : resistanceCandidates prices with _ | ⟨x, xs⟩
      · rw [hl] at hr; simp at hr
      · rw [hl] at hr
        simp only [List.head?_cons, Option.some.injEq] at hr
        rw [← hr]
        exact List.mem_cons_self _ _
    have hsf : s ∈ (findPivots prices).filter (fun p => decide (p < lastClose prices)) := by
      unfold supportCandidates at hsm
      exact (List.perm_insertionSort _ _).mem_iff.1 hsm
    have hrf : r ∈ (findPivots prices).filter (fun p => decide (p > lastClose prices)) := by
      unfold resistanceCandidates at hrm
      exact (List.perm_insertionSort _ _).mem_iff.1 hrm
    have hslt : s < lastClose prices := of_decide_eq_true (List.mem_filter.1 hsf).2
    have hrlt : lastClose prices < r := of_decide_eq_true (List.mem_filter.1 hrf).2
    rw [findKeyLevels, if_neg (by omega)]
    simp only [hs, hr, jsOrElse]
    rw [if_neg hs0, if_neg hr0]
    exact ⟨hslt, hrlt⟩
  · intro hlt
    rw [findKeyLevels, if_pos hlt]
    exact ⟨rfl, rfl⟩

/-- 20 flat bars with one pivot high (120, index 5) and one pivot low
(80, index 10) bracketing the final close of 100. -/
def c8bars : List HistoricalPrice := [
    flatBar 100, flatBar 100, flatBar 100, flatBar 100, flatBar 100,
    ⟨100, 120, 100, 100, 1000⟩, flatBar 100, flatBar 100, flatBar 100, flatBar 100,
    ⟨100, 100, 80, 100, 1000⟩, flatBar 100, flatBar 100, flatBar 100, flatBar 100,
    flatBar 100, flatBar 100, flatBar 100, flatBar 100, flatBar 100]

set_option maxHeartbeats 2000000 in
/-- Witness for C8 on a concrete 20-bar series whose support (80) and
resistance (120) both come from real pivots. -/
theorem findKeyLevels_bracket_witness :
    (findKeyLevels c8bars).support < lastClose c8bars
      ∧ lastClose c8bars < (findKeyLevels c8bars).resistance := by
  have hlc : lastClose c8bars = 100 := rfl
  have hpiv : findPivots c8bars = [120, 80] := by
    norm_num [findPivots, c8bars, flatBar, List.range_succ]
  refine (findKeyLevels_bracket c8bars).1 80 120 (by norm_num [c8bars, flatBar]) ?_ ?_
    (by norm_num) ?_ (by norm_num)
  · intro b hb
    simp only [c8bars] at hb
    fin_cases hb <;> norm_num [flatBar]
  · rw [supportCandidates, hpiv, hlc]
    norm_num [List.insertionSort, List.orderedInsert]
  · rw [resistanceCandidates, hpiv, hlc]
    norm_num [List.insertionSort, List.orderedInsert]
